import Mathlib

/-!
Verification of the `medical-image-analyzer-backend` Flask application
(`src/app.py`) as a shallow embedding in Lean 4.

The application is a single-endpoint HTTP relay: `POST /analyze-image`
validates a JSON body with fields `imageData` and `mimeType`, forwards the
image and a fixed system prompt to the Gemini generation API, and maps the
outcome (text / empty text / exception) to an HTTP status and JSON body.

The embedding models:
  * JSON objects as association lists of string keys to string values;
  * the Flask request body as `Option JsonObj` (`none` = missing body or
    invalid JSON, mirroring `request.json` being unavailable);
  * Python truthiness of `request.json` and of the extracted string fields;
  * the outcome of `model.generate_content` as an oracle value
    (`GenOutcome`), since the external service is outside the program;
  * the handler `analyze_image` as a pure function that also records every
    request sent to the external API, so that "the external API is never
    invoked" and "no retry is performed" are provable statements.
-/

/-- A JSON object, modelled as an association list from keys to string
values (all values relevant to this application are strings). -/
def JsonObj : Type := List (String × String)

instance : DecidableEq JsonObj := by
  unfold JsonObj
  infer_instance

instance : Repr JsonObj := by
  unfold JsonObj
  infer_instance

/-- `jget j k` models Python's `dict.get(k)`: the value at the first
occurrence of key `k`, or `None` when the key is absent. -/
def jget (j : JsonObj) (k : String) : Option String :=
  match j with
  | [] => none
  | (k', v) :: rest => if k' = k then some v else jget rest k

/-- Python truthiness of an optional string: `None` and `""` are falsy,
every other string is truthy.  Models `not image_data_base64` etc. -/
def pyTruthy : Option String → Bool
  | none => false
  | some s => decide (s ≠ "")

/-- Python truthiness of the parsed request body: `not request.json` is
true when the body is missing / not valid JSON (`none`) or when the parsed
JSON object is empty (an empty dict is falsy in Python). -/
def jsonTruthy : Option JsonObj → Bool
  | none => false
  | some j => decide (j ≠ [])

/-- The fixed instruction string sent with every image
(`system_prompt` in `src/app.py`). -/
def system_prompt : String :=
  "Your Responsibilities include:\n\n1. Detailed Analysis: Thoroughly analyze each image, focusing on identifying any abnormal findings.\n\n2. Findings Report: Document all observed anomalies or signs of disease. Clearly articulate these findings in a structured format.\n\n3. Recommendations and Next Steps: Based on your analysis, suggest potential next steps, including further tests or treatments as applicable.\n\n4. Treatment Suggestions: If appropriate, recommend possible treatment options or interventions.\n\nImportant Notes:\n\n1. Scope of Response: Only respond if the image pertains to human health issues.\n\n2. Clarity of Image: In cases where the image quality impedes clear analysis, note that certain aspects are \x27Unable to be determined based on the provided image.\x27\n\n3. Disclaimer: Accompany your analysis with the disclaimer: \"Consult with a Doctor before making any decisions.\"\n\n4. Your insights are invaluable in guiding clinical decisions. Please proceed with the analysis, adhering to the structured approach outlined above.\n"

/-- `listPrefixOf needle l` is true when `needle` is a prefix of `l`. -/
def listPrefixOf : List Char → List Char → Bool
  | [], _ => true
  | _ :: _, [] => false
  | a :: as, b :: bs => a == b && listPrefixOf as bs

/-- `listContains needle l` is true when `needle` occurs contiguously in `l`. -/
def listContains (needle : List Char) : List Char → Bool
  | [] => listPrefixOf needle []
  | c :: cs => listPrefixOf needle (c :: cs) || listContains needle cs

/-- Python's substring test `needle in hay`, on the underlying character
lists.  Models `"ResourceExhausted" in str(e)` in `src/app.py`. -/
def strContains (hay needle : String) : Bool :=
  listContains needle.toList hay.toList

/-- One request sent to the external generation API: the handler sends
`prompt_parts = [{"mime_type": mime_type, "data": image_data_base64}, system_prompt]`. -/
structure GenRequest where
  mime_type : String
  data : String
  prompt : String
deriving DecidableEq, Repr

/-- Outcome of the external call `model.generate_content(prompt_parts)`:
either a response object carrying `response.text` and
`response.prompt_feedback` (the latter `none` when absent or falsy), or an
exception whose string form `str(e)` is recorded. -/
inductive GenOutcome : Type where
  | ok (text : String) (promptFeedback : Option String)
  | exn (msg : String)
deriving DecidableEq, Repr

/-- An HTTP response: status code and JSON body. -/
structure HttpResponse where
  status : Nat
  body : JsonObj
deriving DecidableEq, Repr

/-- Result of running the handler: the HTTP response together with the
list of requests sent to the external generation API during handling
(empty when the external API was never invoked). -/
structure HandlerTrace where
  response : HttpResponse
  apiCalls : List GenRequest
deriving DecidableEq, Repr

/-- Embedding of the handler `analyze_image` from `src/app.py`.

`body` is the parsed JSON request body (`none` when the body is missing or
not valid JSON); `api` is the outcome the external generation API would
produce for this request.  The trace records the response returned to the
client and every external call made. -/
def analyze_image (body : Option JsonObj) (api : GenOutcome) : HandlerTrace :=
  if jsonTruthy body = false then
    { response := { status := 400, body := [(("error"), ("Request must be JSON"))] },
      apiCalls := [] }
  else
    let j := body.getD []
    let image_data_base64 := jget j ("imageData")
    let mime_type := jget j ("mimeType")
    if pyTruthy image_data_base64 = false ∨ pyTruthy mime_type = false then
      { response := { status := 400,
                      body := [(("error"), ("Missing imageData or mimeType in request body"))] },
        apiCalls := [] }
    else
      let req : GenRequest :=
        { mime_type := mime_type.getD "", data := image_data_base64.getD "",
          prompt := system_prompt }
      match api with
      | GenOutcome.ok text promptFeedback =>
        if text ≠ "" then
          { response := { status := 200, body := [(("analysis"), text)] },
            apiCalls := [req] }
        else
          let error_details :=
            match promptFeedback with
            | some fb => ("Prompt feedback: ") ++ fb
            | none => ("No text in response.")
          { response := { status := 500,
                          body := [(("error"), ("Failed to get analysis from Gemini API")),
                                   (("details"), error_details)] },
            apiCalls := [req] }
      | GenOutcome.exn msg =>
        if strContains msg ("ResourceExhausted") then
          { response := { status := 429,
                          body := [(("error"), ("Quota exceeded. Please try again later.")),
                                   (("backend_detail"), msg)] },
            apiCalls := [req] }
        else
          { response := { status := 500,
                          body := [(("error"),
                                    ("An unexpected error occurred on the backend: ") ++ msg),
                                   (("backend_detail"), msg)] },
            apiCalls := [req] }

/-- Embedding of the startup key check (`src/app.py` lines 12-16):
`GEMINI_API_KEY = os.environ.get("GEMINI_API_KEY")` followed by
`if not GEMINI_API_KEY: raise ValueError(...)`.  Returns the startup
error when the key is absent or falsy, and `ok` otherwise. -/
def startup_check (key : Option String) : Except String Unit :=
  if pyTruthy key = false then
    Except.error ("GEMINI_API_KEY environment variable not set. Please configure it in your hosting environment.")
  else
    Except.ok ()

/-- Modelled from the spec: the liveness route `GET /` of the deployed
application is not present in `src/app.py`.  The spec states: "HTTP
`GET /` -> 200, JSON `{status, message}` (liveness check)" and "The
liveness route always returns 200 regardless of external API
availability."  The parameter records whether the external API is
available; the route does not consult it. -/
def health_check (_apiAvailable : Bool) : HttpResponse :=
  { status := 200,
    body := [(("status"), ("ok")),
             (("message"), ("Medical image analyzer backend is running"))] }

/-! ### Helper lemmas -/

/-- A body with a truthy `imageData` field is a nonempty JSON object. -/
theorem jget_truthy_ne_nil {j : JsonObj} {k : String}
    (h : pyTruthy (jget j k) = true) : j ≠ [] := by
  intro hnil
  subst hnil
  simp [jget, pyTruthy] at h

/-- On a nonempty object the handler passes the `not request.json` guard. -/
theorem jsonTruthy_some {j : JsonObj} (h : j ≠ []) :
    jsonTruthy (some j) = true := by
  simp [jsonTruthy, h]

/-! ### Claims -/

/-- C1: a POST /analyze-image request whose JSON body lacks `imageData` or
`mimeType`, or where either field is an empty string, yields status 400
with an error-message JSON body, and the external generation API is never
invoked for that request. -/
theorem analyze_image_missing_field_400 (j : JsonObj) (api : GenOutcome)
    (h : pyTruthy (jget j ("imageData")) = false ∨
         pyTruthy (jget j ("mimeType")) = false) :
    (analyze_image (some j) api).response.status = 400 ∧
    ((jget (analyze_image (some j) api).response.body ("error")).isSome = true) ∧
    (analyze_image (some j) api).apiCalls = [] := by
  unfold analyze_image
  by_cases hj : j = []
  · subst hj
    simp [jsonTruthy, jget]
  · simp only [jsonTruthy_some hj]
    simp [h, jget]

/-- C1 witness: a body carrying only `mimeType` gets a 400 with an error
field, and no external call is made. -/
theorem analyze_image_missing_field_400_witness :
    (analyze_image (some [(("mimeType"), ("image/png"))])
        (GenOutcome.ok ("t") none)).response.status = 400 ∧
    ((jget (analyze_image (some [(("mimeType"), ("image/png"))])
        (GenOutcome.ok ("t") none)).response.body ("error")).isSome = true) ∧
    (analyze_image (some [(("mimeType"), ("image/png"))])
        (GenOutcome.ok ("t") none)).apiCalls = [] :=
  analyze_image_missing_field_400 _ _ (Or.inl (by decide))

/-- C2: a well-formed request (non-empty `imageData` and `mimeType`) whose
external call succeeds with non-empty text `t` yields status 200 with body
containing exactly `analysis = t`. -/
theorem analyze_image_success_200 (j : JsonObj) (t : String) (pf : Option String)
    (hi : pyTruthy (jget j ("imageData")) = true)
    (hm : pyTruthy (jget j ("mimeType")) = true)
    (ht : t ≠ "") :
    (analyze_image (some j) (GenOutcome.ok t pf)).response =
      { status := 200, body := [(("analysis"), t)] } ∧
    (analyze_image (some j) (GenOutcome.ok t pf)).apiCalls.length = 1 := by
  unfold analyze_image
  simp only [jsonTruthy_some (jget_truthy_ne_nil hi)]
  simp [hi, hm, ht]

/-- C2 witness: with the stub client returning text "Findings: none.", a
well-formed request yields 200 with analysis equal to that text. -/
theorem analyze_image_success_200_witness :
    (analyze_image (some [(("imageData"), ("aGVsbG8=")), (("mimeType"), ("image/png"))])
        (GenOutcome.ok ("Findings: none.") none)).response =
      { status := 200, body := [(("analysis"), ("Findings: none."))] } ∧
    (analyze_image (some [(("imageData"), ("aGVsbG8=")), (("mimeType"), ("image/png"))])
        (GenOutcome.ok ("Findings: none.") none)).apiCalls.length = 1 :=
  analyze_image_success_200 _ _ _ (by decide) (by decide) (by decide)

/-- C7: a POST /analyze-image request whose body is missing or not valid
JSON yields status 400 with body exactly the JSON object
`error = "Request must be JSON"`, and no external call is made. -/
theorem analyze_image_not_json_400 (api : GenOutcome) :
    (analyze_image none api).response.status = 400 ∧
    (analyze_image none api).response.body =
      [(("error"), ("Request must be JSON"))] ∧
    (analyze_image none api).apiCalls = [] :=
  ⟨rfl, rfl, rfl⟩

/-- C3: the liveness route GET / returns status 200 with a JSON body
containing a `status` field and a `message` field, regardless of external
API availability.  (The route is modelled from the spec; see
`health_check`.) -/
theorem health_check_always_200 (apiAvailable : Bool) :
    (health_check apiAvailable).status = 200 ∧
    (jget (health_check apiAvailable).body ("status")).isSome = true ∧
    (jget (health_check apiAvailable).body ("message")).isSome = true :=
  ⟨rfl, rfl, rfl⟩

/-- C4: a well-formed request whose external call raises an exception with
"ResourceExhausted" in its string form yields status 429 with an `error`
message and `backend_detail` equal to the exception's string form. -/
theorem analyze_image_quota_429 (j : JsonObj) (msg : String)
    (hi : pyTruthy (jget j ("imageData")) = true)
    (hm : pyTruthy (jget j ("mimeType")) = true)
    (hq : strContains msg ("ResourceExhausted") = true) :
    (analyze_image (some j) (GenOutcome.exn msg)).response.status = 429 ∧
    jget (analyze_image (some j) (GenOutcome.exn msg)).response.body ("error") =
      some ("Quota exceeded. Please try again later.") ∧
    jget (analyze_image (some j) (GenOutcome.exn msg)).response.body ("backend_detail") =
      some msg := by
  unfold analyze_image
  simp only [jsonTruthy_some (jget_truthy_ne_nil hi)]
  simp [hi, hm, hq, jget]

/-- C4 witness: a quota-exhaustion exception on a well-formed request
produces the 429 response. -/
theorem analyze_image_quota_429_witness :
    (analyze_image (some [(("imageData"), ("aGVsbG8=")), (("mimeType"), ("image/png"))])
        (GenOutcome.exn ("429 ResourceExhausted: quota exceeded"))).response.status = 429 ∧
    jget (analyze_image (some [(("imageData"), ("aGVsbG8=")), (("mimeType"), ("image/png"))])
        (GenOutcome.exn ("429 ResourceExhausted: quota exceeded"))).response.body ("error") =
      some ("Quota exceeded. Please try again later.") ∧
    jget (analyze_image (some [(("imageData"), ("aGVsbG8=")), (("mimeType"), ("image/png"))])
        (GenOutcome.exn ("429 ResourceExhausted: quota exceeded"))).response.body ("backend_detail") =
      some ("429 ResourceExhausted: quota exceeded") :=
  analyze_image_quota_429 _ _ (by decide) (by decide) (by decide)

/-- C5: a well-formed request whose external call raises an exception
without "ResourceExhausted" in its string form is caught and yields status
500, with `backend_detail` equal to the exception's string form and the
`error` field including the exception text; exactly one external call is
made (no retry). -/
theorem analyze_image_exn_500 (j : JsonObj) (msg : String)
    (hi : pyTruthy (jget j ("imageData")) = true)
    (hm : pyTruthy (jget j ("mimeType")) = true)
    (hq : strContains msg ("ResourceExhausted") = false) :
    (analyze_image (some j) (GenOutcome.exn msg)).response.status = 500 ∧
    jget (analyze_image (some j) (GenOutcome.exn msg)).response.body ("backend_detail") =
      some msg ∧
    jget (analyze_image (some j) (GenOutcome.exn msg)).response.body ("error") =
      some (("An unexpected error occurred on the backend: ") ++ msg) ∧
    (analyze_image (some j) (GenOutcome.exn msg)).apiCalls.length = 1 := by
  unfold analyze_image
  simp only [jsonTruthy_some (jget_truthy_ne_nil hi)]
  simp [hi, hm, hq, jget]

/-- C5 witness: a generic exception on a well-formed request produces the
500 response with the exception text echoed, after exactly one call. -/
theorem analyze_image_exn_500_witness :
    (analyze_image (some [(("imageData"), ("aGVsbG8=")), (("mimeType"), ("image/png"))])
        (GenOutcome.exn ("connection reset"))).response.status = 500 ∧
    jget (analyze_image (some [(("imageData"), ("aGVsbG8=")), (("mimeType"), ("image/png"))])
        (GenOutcome.exn ("connection reset"))).response.body ("backend_detail") =
      some ("connection reset") ∧
    jget (analyze_image (some [(("imageData"), ("aGVsbG8=")), (("mimeType"), ("image/png"))])
        (GenOutcome.exn ("connection reset"))).response.body ("error") =
      some (("An unexpected error occurred on the backend: ") ++ ("connection reset")) ∧
    (analyze_image (some [(("imageData"), ("aGVsbG8=")), (("mimeType"), ("image/png"))])
        (GenOutcome.exn ("connection reset"))).apiCalls.length = 1 :=
  analyze_image_exn_500 _ _ (by decide) (by decide) (by decide)

/-- C6: a well-formed request whose external call succeeds but returns no
usable text yields status 500 with an `error` field present, and the
`details` field carries the prompt-feedback metadata when it is
available. -/
theorem analyze_image_empty_text_500 (j : JsonObj) (pf : Option String)
    (hi : pyTruthy (jget j ("imageData")) = true)
    (hm : pyTruthy (jget j ("mimeType")) = true) :
    (analyze_image (some j) (GenOutcome.ok ("") pf)).response.status = 500 ∧
    ((jget (analyze_image (some j) (GenOutcome.ok ("") pf)).response.body ("error")).isSome
      = true) ∧
    (∀ fb, pf = some fb →
      jget (analyze_image (some j) (GenOutcome.ok ("") pf)).response.body ("details") =
        some (("Prompt feedback: ") ++ fb)) := by
  unfold analyze_image
  simp only [jsonTruthy_some (jget_truthy_ne_nil hi)]
  cases pf with
  | none => simp [hi, hm, jget]
  | some fb => simp [hi, hm, jget]

/-- C6 witness: an empty-text response with feedback "blocked: safety"
yields 500, an error field, and the feedback surfaced in `details`. -/
theorem analyze_image_empty_text_500_witness :
    (analyze_image (some [(("imageData"), ("aGVsbG8=")), (("mimeType"), ("image/png"))])
        (GenOutcome.ok ("") (some ("blocked: safety")))).response.status = 500 ∧
    ((jget (analyze_image (some [(("imageData"), ("aGVsbG8=")), (("mimeType"), ("image/png"))])
        (GenOutcome.ok ("") (some ("blocked: safety")))).response.body ("error")).isSome
      = true) ∧
    (∀ fb, (some ("blocked: safety") : Option String) = some fb →
      jget (analyze_image (some [(("imageData"), ("aGVsbG8=")), (("mimeType"), ("image/png"))])
        (GenOutcome.ok ("") (some ("blocked: safety")))).response.body ("details") =
        some (("Prompt feedback: ") ++ fb)) :=
  analyze_image_empty_text_500 _ _ (by decide) (by decide)

/-- C8: at startup, an absent or empty GEMINI_API_KEY environment variable
makes the key check fail fatally with the ValueError message before the
server starts; a present non-empty key lets startup proceed. -/
theorem startup_check_key_required (key : Option String) :
    ((key = none ∨ key = some ("")) →
      startup_check key =
        Except.error ("GEMINI_API_KEY environment variable not set. Please configure it in your hosting environment.")) ∧
    (∀ s, s ≠ "" → key = some s → startup_check key = Except.ok ()) := by
  constructor
  · rintro (rfl | rfl) <;> rfl
  · rintro s hs rfl
    simp [startup_check, pyTruthy, hs]

/-- C8 witness: the absent key and the empty key both fail the startup
check, and a non-empty key passes it. -/
theorem startup_check_key_required_witness :
    startup_check none =
      Except.error ("GEMINI_API_KEY environment variable not set. Please configure it in your hosting environment.") ∧
    startup_check (some ("")) =
      Except.error ("GEMINI_API_KEY environment variable not set. Please configure it in your hosting environment.") ∧
    startup_check (some ("test-key")) = Except.ok () :=
  ⟨(startup_check_key_required none).1 (Or.inl rfl),
   (startup_check_key_required (some (""))).1 (Or.inr rfl),
   (startup_check_key_required (some ("test-key"))).2 ("test-key") (by decide) rfl⟩

/-- C9: the handler is total over request bodies and external-call
outcomes: it always returns a response (so no exception from the external
call propagates out) and the status code is one of exactly 200, 400, 429,
500. -/
theorem analyze_image_status_total (body : Option JsonObj) (api : GenOutcome) :
    (analyze_image body api).response.status = 200 ∨
    (analyze_image body api).response.status = 400 ∨
    (analyze_image body api).response.status = 429 ∨
    (analyze_image body api).response.status = 500 := by
  unfold analyze_image
  by_cases hb : jsonTruthy body = false
  · simp [hb]
  · cases api with
    | ok text promptFeedback =>
      by_cases ht : text = "" <;>
        simp [hb, ht] <;> split <;> simp
    | exn msg =>
      simp only [hb]
      split
      · simp
      · split
        · simp
        · split <;> simp

/-- C10: for a well-formed request the `imageData` string is forwarded to
the external API verbatim: whatever non-empty string it holds (valid
base64 or not), the single external call carries exactly that string as
the image data, the given MIME type, and the fixed system prompt. -/
theorem analyze_image_forwards_verbatim (j : JsonObj) (d m : String) (api : GenOutcome)
    (hd : jget j ("imageData") = some d) (hdne : d ≠ "")
    (hm : jget j ("mimeType") = some m) (hmne : m ≠ "") :
    (analyze_image (some j) api).apiCalls =
      [{ mime_type := m, data := d, prompt := system_prompt }] := by
  have hi : pyTruthy (jget j ("imageData")) = true := by simp [hd, pyTruthy, hdne]
  have hmt : pyTruthy (jget j ("mimeType")) = true := by simp [hm, pyTruthy, hmne]
  unfold analyze_image
  simp only [jsonTruthy_some (jget_truthy_ne_nil hi)]
  cases api with
  | ok text promptFeedback =>
    by_cases ht : text = "" <;> simp [hd, hm, ht, pyTruthy, hdne, hmne]
  | exn msg =>
    by_cases hq : strContains msg ("ResourceExhausted") = true <;>
      simp [hd, hm, hq, pyTruthy, hdne, hmne]

/-- C10 witness: a string that is not valid base64 still passes validation
and is sent to the external API exactly as given. -/
theorem analyze_image_forwards_verbatim_witness :
    (analyze_image (some [(("imageData"), ("not valid base64 !!")),
                          (("mimeType"), ("image/png"))])
        (GenOutcome.ok ("t") none)).apiCalls =
      [{ mime_type := ("image/png"), data := ("not valid base64 !!"),
         prompt := system_prompt }] :=
  analyze_image_forwards_verbatim _ _ _ _ (by decide) (by decide) (by decide) (by decide)
